import Mathlib

/-!
Shallow embedding of the relabel system (files cfg.py, flyer.py, print.py,
generate.py, train.py) and proofs about its specified behaviour.

Modelling conventions:
* page coordinates are exact integers (every rectangle in the source has
  integer corners);
* text is modelled as `List Char` so that every text operation is a
  structurally recursive, kernel-computable function;
* each Python function that prints to stdout returns, alongside its value,
  the list of messages it printed;
* filesystem effects of `generate_sheet` are modelled by explicit state
  passing over an `FS` record holding exactly the files the function touches.
-/

/-- Rectangle (x0, y0, x1, y1) in page coordinate units, the shape of every
`fitz.Rect` literal appearing in the source. -/
structure Rect where
  x0 : Int
  y0 : Int
  x1 : Int
  y1 : Int
deriving DecidableEq

/-- Promo extraction area of print.py, `fitz.Rect(6, 10, 297, 410)`. -/
def rect1 : Rect := ⟨6, 10, 297, 410⟩

/-- Promo destination area of print.py, `fitz.Rect(0, 0, 297, 420)`. -/
def a5_rect1 : Rect := ⟨0, 0, 297, 420⟩

/-- Geometry registry of `generate_sheet` (the `envio_rects` dict): category
name, source crop rectangle `rect2`, destination rectangle `a5_rect2`, in the
insertion order of the Python dict. -/
def envio_rects : List (String × Rect × Rect) :=
  [("MercadoLibre", ⟨30, 140, 297, 600⟩, ⟨297, 10, 595, 440⟩),
   ("CorreoArg", ⟨50, 57, 305, 490⟩, ⟨297, 10, 595, 440⟩)]

/-- Width of the output sheet created by `doc_final.new_page(width=595, ...)`. -/
def sheet_width : Int := 595

/-- Height of the output sheet created by `doc_final.new_page(..., height=420)`. -/
def sheet_height : Int := 420

/-- True when the rectangle is a well-formed area lying entirely inside the
595 x 420 output sheet. -/
def rect_within_sheet (r : Rect) : Bool :=
  decide (0 ≤ r.x0) && decide (r.x0 ≤ r.x1) && decide (r.x1 ≤ sheet_width) &&
  decide (0 ≤ r.y0) && decide (r.y0 ≤ r.y1) && decide (r.y1 ≤ sheet_height)

/-- Renderable surface of one PDF page: its page box. The text layer of a page
is carried separately where the classifier needs it. -/
structure Page where
  rect : Rect
deriving DecidableEq

/-- Intersection of two rectangles, as MuPDF computes it when a clip is given. -/
def rect_intersect (a b : Rect) : Rect :=
  ⟨max a.x0 b.x0, max a.y0 b.y0, min a.x1 b.x1, min a.y1 b.y1⟩

/-- Floor of v * dpi / 72, the scaled lower corner of a clip. -/
def floor_scale (v : Int) (dpi : Nat) : Int :=
  (v * dpi).fdiv 72

/-- Ceiling of v * dpi / 72, the scaled upper corner of a clip. -/
def ceil_scale (v : Int) (dpi : Nat) : Int :=
  -((-(v * dpi)).fdiv 72)

/-- Rasterized pixel buffer: width, height and channel count. -/
structure Pixmap where
  width : Nat
  height : Nat
  n : Nat
deriving DecidableEq

/-- Model of PyMuPDF `page.get_pixmap(matrix=fitz.Matrix(zoom, zoom), clip=rect)`
with `zoom = dpi / 72`: the library intersects the clip with the page box,
scales, and rounds outward; a clip reaching outside the page raises nothing and
is silently restricted to the page (an empty intersection gives an empty
pixmap). Rendering with `alpha=False` yields three channels. -/
def get_pixmap (page : Page) (dpi : Nat) (clip : Rect) : Pixmap :=
  let r := rect_intersect clip page.rect
  if decide (r.x0 ≤ r.x1) && decide (r.y0 ≤ r.y1) then
    ⟨(ceil_scale r.x1 dpi - floor_scale r.x0 dpi).toNat,
     (ceil_scale r.y1 dpi - floor_scale r.y0 dpi).toNat, 3⟩
  else
    ⟨0, 0, 3⟩

/-- Compressed extracted image: pixel dimensions plus the JPEG quality it was
encoded with. -/
structure Image where
  width : Nat
  height : Nat
  quality : Nat
deriving DecidableEq

/-- Embedding of print.py `extract_high_res_image(page, rect, dpi, quality)`:
renders the clipped rectangle at `zoom = dpi / 72`, flattens a fourth channel
away if present, and encodes the pixels as JPEG at the given quality. The
source body contains no validation and no raise statement, so the function is
total. -/
def extract_high_res_image (page : Page) (rect : Rect) (dpi : Nat) (quality : Nat) : Image :=
  let pix := get_pixmap page dpi rect
  let pix2 := if pix.n > 3 then { pix with n := 3 } else pix
  ⟨pix2.width, pix2.height, quality⟩

/-- PDF document as `generate_sheet` sees one: its ordered pages. -/
structure Doc where
  pages : List Page
deriving DecidableEq

/-- Python `range(start, stop, step)` for a positive step: the values
`start + step * i` for `i < ceil((stop - start) / step)`. -/
def pyRange (start stop step : Nat) : List Nat :=
  (List.range ((stop - start + step - 1) / step)).map (fun i => start + step * i)

/-- Centre abscissa of the cut guide, `x_middle = 297` in the source. -/
def x_middle : Int := 297

/-- Dashed cut guide of `generate_sheet`: one segment from (297, y) to
(297, y + 2) for each y produced by `range(1, 419, 3)`. -/
def cut_segments : List ((Int × Int) × (Int × Int)) :=
  (pyRange 1 419 3).map
    (fun y => ((x_middle, (y : Int)), (x_middle, (y : Int) + 2)))

/-- Scissor icon placement, `fitz.Rect(x_middle - 6, y_end - 18, x_middle + 6, y_end)`
with `y_end = 419`. -/
def tijera_rect : Rect := ⟨291, 401, 303, 419⟩

/-- One composed output page: its size, the images inserted on it in insertion
order, the cut guide segments, and the scissor icon area when the icon file
exists. -/
structure SheetPage where
  width : Int
  height : Int
  images : List (Rect × Image)
  segments : List ((Int × Int) × (Int × Int))
  tijera : Option Rect
deriving DecidableEq

/-- The document `generate_sheet` builds in `doc_final`. -/
structure OutDoc where
  pages : List SheetPage
deriving DecidableEq

/-- Filesystem state visible to `generate_sheet`: the temporary promo document
tmp/interm.pdf, the shipping label document, the output file, and whether the
scissor icon data/tijera.png exists. -/
structure FS where
  interm : Option Doc
  label : Option Doc
  output : Option OutDoc
  tijera_exists : Bool
deriving DecidableEq

/-- Outcome of a `generate_sheet` call: either a raised RuntimeError or the
returned value, `None` on the fall-through success path and `False` on the
unsupported-category path. -/
inductive GenOutcome where
  | raised (msg : String)
  | returned (v : Option Bool)
deriving DecidableEq

/-- Result triple of a `generate_sheet` call: outcome, final filesystem state,
printed messages. -/
structure GenResult where
  outcome : GenOutcome
  fs : FS
  log : List String
deriving DecidableEq

/-- Message of the RuntimeError raised when tmp/interm.pdf is absent. -/
def msg_missing_interm : String := "No se encontro el archivo tmp/interm.pdf"

/-- Message of the RuntimeError raised when the label document is absent. -/
def msg_missing_label : String := "No se encontro el archivo de etiqueta"

/-- Message printed for an unsupported shipping category. -/
def msg_unsupported (tipo : String) : String :=
  "Error: Tipo de envio " ++ tipo ++ " no soportado."

/-- Message of the RuntimeError that wraps any exception of the try block. -/
def msg_wrapped : String := "Error al generar el PDF"

/-- Message printed after the output file is saved. -/
def msg_success : String := "PDF generado con exito"

/-- Embedding of print.py `generate_sheet(tipo_envio, label_envio, output_file)`.
Control flow mirrors the source exactly: the two existence checks raise before
anything else; an unknown category prints and returns False before the
try block, so the finally clause that removes tmp/interm.pdf does not run on
that path; inside the try block, indexing an empty document raises, the
exception is wrapped, and the finally clause removes tmp/interm.pdf; on
success one 595 x 420 page is created with the promo image, the label image,
the cut guide and optionally the scissor icon, and the page is saved to the
output file. The source has no return statement after the try block, so the
success path returns None. -/
def generate_sheet (tipo_envio : String) (fs : FS) : GenResult :=
  match fs.interm with
  | none => ⟨.raised msg_missing_interm, fs, []⟩
  | some doc1 =>
    match fs.label with
    | none => ⟨.raised msg_missing_label, fs, []⟩
    | some doc2 =>
      match envio_rects.lookup tipo_envio with
      | none => ⟨.returned (some false), fs, [msg_unsupported tipo_envio]⟩
      | some (rect2, a5_rect2) =>
        let fs1 : FS := { fs with interm := none }
        match doc1.pages with
        | [] => ⟨.raised msg_wrapped, fs1, []⟩
        | page1 :: _ =>
          let stream1 := extract_high_res_image page1 rect1 260 75
          match doc2.pages with
          | [] => ⟨.raised msg_wrapped, fs1, []⟩
          | page2 :: _ =>
            let stream2 := extract_high_res_image page2 rect2 260 75
            let new_page : SheetPage :=
              { width := 595
                height := 420
                images := [(a5_rect1, stream1), (a5_rect2, stream2)]
                segments := cut_segments
                tijera := if fs.tijera_exists then some tijera_rect else none }
            ⟨.returned none, { fs1 with output := some ⟨[new_page]⟩ },
              [msg_success]⟩

/-- Pages of the output file after a `generate_sheet` call, empty when no
output file was written. -/
def output_pages (g : GenResult) : List SheetPage :=
  match g.fs.output with
  | some o => o.pages
  | none => []

/-- Python str.strip(): drop leading and trailing whitespace. -/
def pyStrip (cs : List Char) : List Char :=
  ((cs.dropWhile Char.isWhitespace).reverse.dropWhile Char.isWhitespace).reverse

/-- Python " ".join(parts). -/
def joinSpace : List (List Char) → List Char
  | [] => []
  | [x] => x
  | x :: xs => x ++ ' ' :: joinSpace xs

/-- Classifier artifact of generate.py predict_pdf: the three co-versioned
components loaded from modelo_svm.pkl, vectorizer.pkl and label_encoder.pkl,
abstracted by what predict_pdf calls on them: vectorizer.transform,
model.predict and label_encoder.inverse_transform. -/
structure Artifacts where
  vectorizer : List Char → List Int
  model : List Int → Nat
  label_encoder : Nat → String

/-- Error taxonomy of predict_pdf; each constructor stands for one raise site
of the source (all raise RuntimeError with distinct messages). -/
inductive PredError where
  | artifactLoadError
  | emptyTextError (path : String)
  | predictionError (path : String) (inner : PredError)
deriving DecidableEq

/-- Text assembled by predict_pdf before classification: the per-page extracted
texts joined with single spaces, where Python filter(None, ...) first drops
pages with no text layer (None) and pages whose text is the empty string. -/
def join_nonempty (pages : List (Option (List Char))) : List Char :=
  joinSpace ((pages.filterMap id).filter (fun s => !s.isEmpty))

/-- Body of the outer try block of predict_pdf: load the three artifact
components (raising when any is missing), join and strip the page texts,
raise on blank text, otherwise transform, predict and decode. -/
def predict_core (arts : Option Artifacts) (path : String)
    (pages : List (Option (List Char))) : Except PredError String :=
  match arts with
  | none => .error .artifactLoadError
  | some a =>
    let clean_text := pyStrip (join_nonempty pages)
    if clean_text.isEmpty then .error (.emptyTextError path)
    else .ok (a.label_encoder (a.model (a.vectorizer clean_text)))

/-- Embedding of generate.py predict_pdf: the except clause wraps every
exception of the body, the empty-text and artifact-load errors included, in
the RuntimeError naming the offending document. -/
def predict_pdf (arts : Option Artifacts) (path : String)
    (pages : List (Option (List Char))) : Except PredError String :=
  match predict_core arts path pages with
  | .error e => .error (.predictionError path e)
  | .ok c => .ok c

/-- True when a predict_pdf call returned a category instead of raising. -/
def returns_category : Except PredError String → Bool
  | .ok _ => true
  | .error _ => false

/-- Embedding of train.py extract_text_from_pdf: join each page text (or the
empty string for a page without one) with spaces, then strip. -/
def extract_text_from_pdf (pages : List (Option (List Char))) : List Char :=
  pyStrip (joinSpace (pages.map (fun p => p.getD [])))

/-- The characters of ".pdf". -/
def pdf_suffix : List Char := ['.', 'p', 'd', 'f']

/-- Python f.endswith(".pdf"). -/
def ends_with_pdf (file : List Char) : Bool :=
  pdf_suffix.isSuffixOf file

/-- Inner loop of train.py load_data over one labelled folder, given for each
listed file its name and extracted page texts: files not ending in ".pdf" are
ignored, a document whose stripped text is empty is skipped, every other
document contributes its text and the folder label. The third component is
the list of messages printed while loading; the source loop prints nothing,
in particular nothing when it skips a document. -/
def load_data_folder (label : String) :
    List (List Char × List (Option (List Char))) →
      List (List Char) × List String × List String
  | [] => ([], [], [])
  | (file, pages) :: rest =>
    let acc := load_data_folder label rest
    if ends_with_pdf file then
      let text := extract_text_from_pdf pages
      if !text.isEmpty then (text :: acc.1, label :: acc.2.1, acc.2.2)
      else acc
    else acc

/-- Embedding of train.py load_data over the DATA_DIRS mapping: texts, labels
and printed messages accumulated folder by folder. -/
def load_data :
    List (String × List (List Char × List (Option (List Char)))) →
      List (List Char) × List String × List String
  | [] => ([], [], [])
  | (label, folder) :: rest =>
    let f := load_data_folder label folder
    let r := load_data rest
    (f.1 ++ r.1, f.2.1 ++ r.2.1, f.2.2 ++ r.2.2)

/-- Embedding of train.py load_stopwords: each line stripped, blank lines
dropped. -/
def load_stopwords (lines : List (List Char)) : List (List Char) :=
  (lines.map pyStrip).filter (fun s => !s.isEmpty)

/-- Configuration of the TfidfVectorizer as train.py main constructs it. -/
structure TfidfVectorizer where
  stop_words : List (List Char)
  max_features : Nat

/-- The vectorizer built in train.py main:
TfidfVectorizer(stop_words=stopwords, max_features=5000). -/
def main_vectorizer (stop : List (List Char)) : TfidfVectorizer :=
  ⟨stop, 5000⟩

/-- Model of sklearn TfidfVectorizer vocabulary fitting at the granularity the
claims need: stop words are removed, duplicate terms collapse, and at most
max_features distinct terms are kept (sklearn keeps the highest-frequency
terms; which terms survive the cap does not matter for the bound proved
here). -/
def fit_vocabulary (v : TfidfVectorizer) (terms : List (List Char)) : List (List Char) :=
  ((terms.filter (fun t => !v.stop_words.contains t)).dedup).take v.max_features

/-- Python s.split(sep, 1) when sep is a single character, reported as the
pieces before and after the first occurrence, or none when sep does not
occur. -/
def py_split1 (h : Char) : List Char → Option (List Char × List Char)
  | [] => none
  | c :: cs =>
    if c = h then some ([], cs)
    else
      match py_split1 h cs with
      | some (a, b) => some (c :: a, b)
      | none => none

/-- Python file.rsplit(".", 1)[0]: everything before the last dot, the whole
string when there is no dot. -/
def py_rsplit_dot1 (cs : List Char) : List Char :=
  match py_split1 '.' cs.reverse with
  | some (_, b) => b.reverse
  | none => cs

/-- Filter of the Discover step of generate.py generar_etiqueta:
f.endswith(".pdf") and "-" in f. -/
def matches_convention (f : List Char) : Bool :=
  ends_with_pdf f && f.contains '-'

/-- Failures of the Discover step. -/
inductive DiscError where
  | noInputFound
  | unpackError
deriving DecidableEq

/-- Embedding of the Discover step of generate.py generar_etiqueta: filter the
base directory listing down to names ending in ".pdf" and containing a hyphen;
no match raises RuntimeError (the NoInputFoundError of the spec); otherwise
the first match in listing order is taken and its stem is split at its first
hyphen into medio_venta and num_orden. A stem without a hyphen would make the
Python two-variable unpack raise ValueError, modelled as unpackError. -/
def discover (listing : List (List Char)) :
    Except DiscError (List Char × List Char × List Char) :=
  match listing.filter matches_convention with
  | [] => .error .noInputFound
  | file :: _ =>
    match py_split1 '-' (py_rsplit_dot1 file) with
    | some (a, b) => .ok (file, a, b)
    | none => .error .unpackError

/-- Tokens of the chosen filename, Python
file.rsplit(".", 1)[0].split("-", 1): the stem split at its first hyphen,
with ([], []) as the placeholder when the stem has no hyphen (the Python
unpack would raise there, and discover is proved never to reach that case for
a filename passing the filter). -/
def stem_split (f : List Char) : List Char × List Char :=
  match py_split1 '-' (py_rsplit_dot1 f) with
  | some p => p
  | none => ([], [])

/-- True when the first rectangle lies inside the second. -/
def rect_inside (inner outer : Rect) : Bool :=
  decide (outer.x0 ≤ inner.x0) && decide (inner.x1 ≤ outer.x1) &&
  decide (outer.y0 ≤ inner.y0) && decide (inner.y1 ≤ outer.y1)

/-- An A4-size page used by concrete runs. -/
def pageA4 : Page := ⟨⟨0, 0, 595, 842⟩⟩

/-- A one-page document used by concrete runs. -/
def docA4 : Doc := ⟨[pageA4]⟩

/-- Filesystem state with both input documents present, no output file yet and
no scissor icon. -/
def fs0 : FS := ⟨some docA4, some docA4, none, false⟩

/-- A concrete classifier artifact used by closed runs of the prediction
model. -/
def arts0 : Artifacts := ⟨fun _ => [], fun _ => 0, fun _ => "MercadoLibre"⟩

/-- Intersecting a rectangle with a page box twice equals intersecting once. -/
theorem rect_intersect_idem (r p : Rect) :
    rect_intersect (rect_intersect r p) p = rect_intersect r p := by
  simp [rect_intersect, max_assoc, min_assoc]

/-- C1 counterexample: the geometry registry lookup for MercadoLibre returns a
label destination rectangle reaching y1 = 440, which is not within the
595 x 420 output sheet, contradicting the claim that every destination
rectangle lies within the sheet bounds. -/
theorem registry_dest_outside_sheet :
    envio_rects.lookup "MercadoLibre" =
      some (⟨30, 140, 297, 600⟩, ⟨297, 10, 595, 440⟩) ∧
    rect_within_sheet ⟨297, 10, 595, 440⟩ = false := by
  decide

/-- C1 (amended): registry keys are distinct and both known Categories resolve
to exactly one source and one destination rectangle; the promo destination
lies within the 595 x 420 sheet; every label destination fits horizontally
but ends at y1 = 440, 20 units below the 420-unit sheet height. -/
theorem registry_geometry :
    (envio_rects.map Prod.fst).Nodup ∧
    (envio_rects.lookup "MercadoLibre").isSome = true ∧
    (envio_rects.lookup "CorreoArg").isSome = true ∧
    rect_within_sheet a5_rect1 = true ∧
    (envio_rects.all (fun e =>
        decide (0 ≤ e.2.2.x0) && decide (e.2.2.x0 ≤ e.2.2.x1) &&
        decide (e.2.2.x1 ≤ sheet_width) && decide (e.2.2.y1 = 440) &&
        !rect_within_sheet e.2.2)) = true := by
  decide

/-- C10: every geometry registry entry carries the same label destination
rectangle (297, 10, 595, 440); only the source crop rectangle differs between
the two categories. -/
theorem registry_label_dest_fixed :
    (envio_rects.all (fun e => decide (e.2.2 = ⟨297, 10, 595, 440⟩))) = true ∧
    envio_rects.lookup "MercadoLibre" =
      some (⟨30, 140, 297, 600⟩, ⟨297, 10, 595, 440⟩) ∧
    envio_rects.lookup "CorreoArg" =
      some (⟨50, 57, 305, 490⟩, ⟨297, 10, 595, 440⟩) := by
  decide

/-- C6 counterexample: extracting with a rectangle that reaches outside the
page box raises nothing; extraction succeeds and the region is silently
clamped to the page, here to 50 x 50 pixels at dpi 72 instead of the 150 x 150
the rectangle alone would give. -/
theorem extract_out_of_bounds_succeeds :
    rect_inside ⟨50, 50, 200, 200⟩ ⟨0, 0, 100, 100⟩ = false ∧
    extract_high_res_image ⟨⟨0, 0, 100, 100⟩⟩ ⟨50, 50, 200, 200⟩ 72 75 =
      ⟨50, 50, 75⟩ := by
  decide

/-- C6 (amended): extract_high_res_image takes an already resolved page object
(page indexing happens at its call sites) and validates nothing: for every
rectangle, in or out of the page bounds, extraction succeeds and behaves as if
the rectangle had first been clamped to the page box; no ExtractionError
exists. -/
theorem extract_never_validates_rect (page : Page) (rect : Rect)
    (dpi quality : Nat) :
    extract_high_res_image page rect dpi quality =
      extract_high_res_image page (rect_intersect rect page.rect) dpi quality := by
  simp [extract_high_res_image, get_pixmap, rect_intersect_idem]

/-- C7: region extraction is deterministic: two calls on the same page with
the same rectangle, dpi and quality produce images of identical pixel width
and height. -/
theorem extract_dims_deterministic (page : Page) (rect : Rect)
    (dpi quality : Nat) :
    (extract_high_res_image page rect dpi quality).width =
      (extract_high_res_image page rect dpi quality).width ∧
    (extract_high_res_image page rect dpi quality).height =
      (extract_high_res_image page rect dpi quality).height :=
  ⟨rfl, rfl⟩

set_option maxRecDepth 16384

/-- C2 counterexample: a successful composition run draws 140 cut guide
segments, one per value of range(1, 419, 3), not floor((419 - 1) / 3) = 139
as claimed. -/
theorem cut_guide_count_neq_floor :
    ((output_pages (generate_sheet "MercadoLibre" fs0)).map
        (fun pg => pg.segments.length)) = [140] ∧
    (419 - 1) / 3 ≠ 140 := by
  decide

/-- C2 (amended): every successful generate_sheet run with a known Category
and both input documents present composes exactly one output page of size
595 x 420 whose vertical dashed cut guide has exactly
floor((419 - 1) / 3) + 1 = 140 segments. -/
theorem generate_sheet_success_layout (tipo : String) (fs : FS) (d1 d2 : Doc)
    (p1 p2 : Page) (t1 t2 : List Page) (r : Rect × Rect)
    (h1 : fs.interm = some d1) (h2 : fs.label = some d2)
    (h3 : envio_rects.lookup tipo = some r)
    (h4 : d1.pages = p1 :: t1) (h5 : d2.pages = p2 :: t2) :
    (generate_sheet tipo fs).outcome = .returned none ∧
    (output_pages (generate_sheet tipo fs)).map
        (fun pg => (pg.width, pg.height, pg.segments.length)) =
      [(595, 420, (419 - 1) / 3 + 1)] := by
  obtain ⟨r2, a5⟩ := r
  have hlen : cut_segments.length = (419 - 1) / 3 + 1 := by rfl
  simp only [generate_sheet, h1, h2, h3, h4, h5, output_pages, List.map_cons,
    List.map_nil, hlen]
  exact ⟨trivial, trivial⟩

/-- C2 witness: the amended layout property at a concrete successful run. -/
theorem generate_sheet_success_layout_witness :
    (generate_sheet "MercadoLibre" fs0).outcome = .returned none ∧
    (output_pages (generate_sheet "MercadoLibre" fs0)).map
        (fun pg => (pg.width, pg.height, pg.segments.length)) =
      [(595, 420, (419 - 1) / 3 + 1)] :=
  generate_sheet_success_layout "MercadoLibre" fs0 docA4 docA4 pageA4 pageA4
    [] [] (⟨30, 140, 297, 600⟩, ⟨297, 10, 595, 440⟩) rfl rfl (by decide)
    rfl rfl

/-- C4: a Category absent from the geometry registry makes generate_sheet
print a message and return False without raising, and the filesystem state is
returned unchanged: no output file and no partial file is written. -/
theorem generate_sheet_unknown_category_soft_failure (tipo : String) (fs : FS)
    (d1 d2 : Doc) (h1 : fs.interm = some d1) (h2 : fs.label = some d2)
    (h3 : envio_rects.lookup tipo = none) :
    generate_sheet tipo fs =
      ⟨.returned (some false), fs, [msg_unsupported tipo]⟩ := by
  simp only [generate_sheet, h1, h2, h3]

/-- C4 witness: the unknown-category soft failure at a concrete run. -/
theorem generate_sheet_unknown_category_soft_failure_witness :
    generate_sheet "OCA" fs0 =
      ⟨.returned (some false), fs0, [msg_unsupported "OCA"]⟩ :=
  generate_sheet_unknown_category_soft_failure "OCA" fs0 docA4 docA4 rfl rfl
    (by decide)

/-- C5 counterexample: on the unknown-category soft-failure exit path the
temporary promo document tmp/interm.pdf is not deleted: the call returns False
with the temporary file still present. -/
theorem interm_kept_on_soft_failure :
    (generate_sheet "OCA" fs0).outcome = .returned (some false) ∧
    (generate_sheet "OCA" fs0).fs.interm = some docA4 := by
  decide

/-- C5 (amended): once execution enters the try block of generate_sheet, that
is whenever both inputs exist and the Category is known, tmp/interm.pdf is
deleted before the call returns, on the success path and on every exception
path alike; the unknown-category soft failure and the missing-input errors
return before the try block and leave the temporary file in place. -/
theorem interm_removed_inside_try (tipo : String) (fs : FS) (d1 d2 : Doc)
    (r : Rect × Rect) (h1 : fs.interm = some d1) (h2 : fs.label = some d2)
    (h3 : envio_rects.lookup tipo = some r) :
    (generate_sheet tipo fs).fs.interm = none := by
  obtain ⟨r2, a5⟩ := r
  cases hp1 : d1.pages with
  | nil => simp [generate_sheet, h1, h2, h3, hp1]
  | cons p t =>
    cases hp2 : d2.pages with
    | nil => simp [generate_sheet, h1, h2, h3, hp1, hp2]
    | cons q s => simp [generate_sheet, h1, h2, h3, hp1, hp2]

/-- C5 witness: the temporary file is gone after a concrete successful run. -/
theorem interm_removed_inside_try_witness :
    (generate_sheet "MercadoLibre" fs0).fs.interm = none :=
  interm_removed_inside_try "MercadoLibre" fs0 docA4 docA4
    (⟨30, 140, 297, 600⟩, ⟨297, 10, 595, 440⟩) rfl rfl (by decide)

/-- C3: for a document whose joined page text is blank after stripping,
predict_pdf raises the empty-text RuntimeError (wrapped, as every error of the
body, in the prediction RuntimeError naming the document) and never returns a
category. -/
theorem predict_pdf_empty_text_fails (a : Artifacts) (path : String)
    (pages : List (Option (List Char)))
    (h : (pyStrip (join_nonempty pages)).isEmpty = true) :
    predict_pdf (some a) path pages =
      .error (.predictionError path (.emptyTextError path)) ∧
    returns_category (predict_pdf (some a) path pages) = false := by
  constructor
  · simp [predict_pdf, predict_core, h]
  · simp [predict_pdf, predict_core, h, returns_category]

/-- C3 witness: a document with one whitespace-only page and one page with no
text layer fails with the wrapped empty-text error. -/
theorem predict_pdf_empty_text_fails_witness :
    predict_pdf (some arts0) "meli-1.pdf" [some [' ', ' '], none] =
      .error (.predictionError "meli-1.pdf" (.emptyTextError "meli-1.pdf")) ∧
    returns_category
        (predict_pdf (some arts0) "meli-1.pdf" [some [' ', ' '], none]) =
      false :=
  predict_pdf_empty_text_fails arts0 "meli-1.pdf" [some [' ', ' '], none]
    (by decide)

/-- Properties of one folder pass of load_data: nothing is printed, texts and
labels stay aligned, and only documents with nonempty stripped text
contribute. -/
theorem load_data_folder_props (label : String)
    (folder : List (List Char × List (Option (List Char)))) :
    (load_data_folder label folder).2.2 = [] ∧
    (load_data_folder label folder).1.length =
      (load_data_folder label folder).2.1.length ∧
    ((load_data_folder label folder).1.all (fun t => !t.isEmpty)) = true := by
  induction folder with
  | nil => simp [load_data_folder]
  | cons e rest ih =>
    obtain ⟨f, pages⟩ := e
    obtain ⟨ih1, ih2, ih3⟩ := ih
    simp only [load_data_folder]
    split
    · split
      · next hne =>
        refine ⟨ih1, by simpa using ih2, ?_⟩
        simpa [List.all_cons, hne] using ih3
      · exact ⟨ih1, ih2, ih3⟩
    · exact ⟨ih1, ih2, ih3⟩

/-- C8 counterexample: a training folder holding one PDF whose extracted text
is whitespace-only is skipped, and load_data prints nothing at all: the claimed
warning does not exist. -/
theorem load_data_skips_without_warning :
    load_data
        [("MercadoLibre", [(['v', '.', 'p', 'd', 'f'], [some [' ', ' ']])])] =
      ([], [], []) := by
  decide

/-- C8 (amended): training skips every document with empty extracted text
silently, with no warning and no fatal error, contributing neither a text nor
a label; the TF-IDF vectorizer is configured with the stop words loaded from
the configurable stop-word file and a 5000-term vocabulary cap, and the fitted
vocabulary never exceeds 5000 terms. -/
theorem training_skips_empty_silently_caps_vocab
    (dirs : List (String × List (List Char × List (Option (List Char)))))
    (stopLines : List (List Char)) (terms : List (List Char)) :
    (load_data dirs).2.2 = [] ∧
    ((load_data dirs).1.all (fun t => !t.isEmpty)) = true ∧
    (load_data dirs).1.length = (load_data dirs).2.1.length ∧
    (main_vectorizer (load_stopwords stopLines)).max_features = 5000 ∧
    (fit_vocabulary (main_vectorizer (load_stopwords stopLines)) terms).length ≤
      5000 := by
  refine ⟨?_, ?_, ?_, rfl, ?_⟩
  · induction dirs with
    | nil => simp [load_data]
    | cons e rest ih =>
      obtain ⟨label, folder⟩ := e
      have hf := load_data_folder_props label folder
      simp [load_data, hf.1, ih]
  · induction dirs with
    | nil => simp [load_data]
    | cons e rest ih =>
      obtain ⟨label, folder⟩ := e
      have hf := load_data_folder_props label folder
      simp only [load_data, List.all_append]
      simp [hf.2.2, ih]
  · induction dirs with
    | nil => simp [load_data]
    | cons e rest ih =>
      obtain ⟨label, folder⟩ := e
      have hf := load_data_folder_props label folder
      simp [load_data, hf.2.1, ih]
  · simp only [fit_vocabulary, main_vectorizer]
    exact List.length_take_le _ _

/-- A successful py_split1 returns the pieces around the first occurrence of
the separator: the input is before ++ sep :: after and the separator does not
occur in the before part. -/
theorem py_split1_eq_some (h : Char) :
    ∀ {cs a b : List Char},
      py_split1 h cs = some (a, b) → cs = a ++ h :: b ∧ h ∉ a := by
  intro cs
  induction cs with
  | nil =>
    intro a b hab
    simp [py_split1] at hab
  | cons c cs ih =>
    intro a b hab
    by_cases hc : c = h
    · subst hc
      simp [py_split1] at hab
      obtain ⟨ha, hb⟩ := hab
      subst ha
      subst hb
      simp
    · rcases hsp : py_split1 h cs with _ | ⟨a2, b2⟩
      · simp [py_split1, hc, hsp] at hab
      · simp only [py_split1, if_neg hc, hsp, Option.some.injEq,
          Prod.mk.injEq] at hab
        obtain ⟨ha, hb⟩ := hab
        subst ha
        subst hb
        obtain ⟨he, hm⟩ := ih hsp
        constructor
        · simp [he]
        · simp only [List.mem_cons, not_or]
          exact ⟨fun hx => hc hx.symm, hm⟩

/-- py_split1 succeeds whenever the separator occurs in the input. -/
theorem py_split1_isSome_of_mem (h : Char) :
    ∀ {cs : List Char}, h ∈ cs → (py_split1 h cs).isSome = true := by
  intro cs
  induction cs with
  | nil =>
    intro hm
    simp at hm
  | cons c cs ih =>
    intro hm
    by_cases hc : c = h
    · simp [py_split1, hc]
    · have hmem : h ∈ cs := by
        rcases List.mem_cons.mp hm with h1 | h1
        · exact absurd h1.symm hc
        · exact h1
      have hs := ih hmem
      rcases ho : py_split1 h cs with _ | ⟨a, b⟩
      · rw [ho] at hs
        simp at hs
      · simp [py_split1, hc, ho]

/-- Removing the extension from a name of the shape stem ++ ".pdf" gives the
stem back. -/
theorem py_rsplit_dot1_pdf (t : List Char) :
    py_rsplit_dot1 (t ++ pdf_suffix) = t := by
  have h1 : (t ++ pdf_suffix).reverse = 'f' :: 'd' :: 'p' :: '.' :: t.reverse := by
    rw [List.reverse_append]
    rfl
  have h2 : py_split1 '.' ('f' :: 'd' :: 'p' :: '.' :: t.reverse) =
      some (['f', 'd', 'p'], t.reverse) := rfl
  simp only [py_rsplit_dot1, h1, h2, List.reverse_reverse]

/-- A hyphen in a name of the shape stem ++ ".pdf" lies in the stem. -/
theorem hyphen_mem_of_append_pdf {t : List Char} (h : '-' ∈ t ++ pdf_suffix) :
    '-' ∈ t := by
  rcases List.mem_append.mp h with h1 | h1
  · exact h1
  · simp [pdf_suffix] at h1

/-- C9: the Discover step of generar_etiqueta. With zero files matching the
convention (name ends in ".pdf" and contains a hyphen) it fails with the
no-input RuntimeError; otherwise it picks the first matching entry of the
directory listing and splits its stem (extension removed at the last dot) at
the stem's first hyphen into the medium token and the order token: the stem is
exactly medium ++ hyphen ++ order with no hyphen inside the medium token. -/
theorem discover_spec (listing : List (List Char)) :
    (listing.filter matches_convention = [] →
        discover listing = .error .noInputFound) ∧
    (∀ f rest, listing.filter matches_convention = f :: rest →
        discover listing = .ok (f, (stem_split f).1, (stem_split f).2) ∧
        py_rsplit_dot1 f = (stem_split f).1 ++ '-' :: (stem_split f).2 ∧
        '-' ∉ (stem_split f).1) := by
  constructor
  · intro hf
    simp [discover, hf]
  · intro f rest hf
    have hmem : f ∈ listing.filter matches_convention := by
      rw [hf]
      exact List.mem_cons_self f rest
    have hmc : matches_convention f = true := (List.mem_filter.mp hmem).2
    rw [matches_convention, Bool.and_eq_true] at hmc
    obtain ⟨hsuf, hcon⟩ := hmc
    obtain ⟨t, ht⟩ : ∃ t, t ++ pdf_suffix = f :=
      List.isSuffixOf_iff_suffix.mp hsuf
    subst ht
    have hstem : py_rsplit_dot1 (t ++ pdf_suffix) = t := py_rsplit_dot1_pdf t
    have hmemf : '-' ∈ t ++ pdf_suffix := List.elem_iff.mp hcon
    have hmt : '-' ∈ t := hyphen_mem_of_append_pdf hmemf
    have hsome := py_split1_isSome_of_mem '-' hmt
    rcases hsp : py_split1 '-' t with _ | ⟨a, b⟩
    · rw [hsp] at hsome
      simp at hsome
    · obtain ⟨hteq, hna⟩ := py_split1_eq_some '-' hsp
      have hss : stem_split (t ++ pdf_suffix) = (a, b) := by
        simp [stem_split, hstem, hsp]
      refine ⟨?_, ?_, ?_⟩
      · simp [discover, hf, hstem, hsp, hss]
      · rw [hss, hstem]
        exact hteq
      · rw [hss]
        exact hna

/-- C9 witness: with two listed files of which only meli-1.pdf matches the
convention, Discover picks it and splits its stem at the first hyphen; with no
matching file, Discover fails with the no-input error. -/
theorem discover_spec_witness :
    discover [['x'], ['m', 'e', 'l', 'i', '-', '1', '.', 'p', 'd', 'f']] =
      .ok (['m', 'e', 'l', 'i', '-', '1', '.', 'p', 'd', 'f'],
        ['m', 'e', 'l', 'i'], ['1']) ∧
    discover [['x']] = .error .noInputFound := by
  constructor
  · have h :=
      (discover_spec [['x'], ['m', 'e', 'l', 'i', '-', '1', '.', 'p', 'd', 'f']]).2
        ['m', 'e', 'l', 'i', '-', '1', '.', 'p', 'd', 'f'] [] (by decide)
    rw [h.1]
    rfl
  · exact (discover_spec [['x']]).1 (by decide)
